import Mathlib

/-!
Verification of the trace-column layout and runtime-lookup-table mechanism
of the proof-systems repository.

Part 1 embeds the runtime-table subsystem
(kimchi/src/circuits/lookup/runtime_tables.rs).
Part 2 embeds the Keccak trace-column layout
(optimism/src/keccak/column.rs).

Rust fixed-size arrays are embedded as functions from Fin n; Rust array
indexing (which panics out of bounds) is embedded as an Option-valued read;
obtaining a mutable reference and storing through it is embedded as an
Option-valued functional update.  A Rust panic is `none`.
-/

/-! ### Runtime table subsystem (kimchi/src/circuits/lookup/runtime_tables.rs) -/

/-- The specification of a runtime table: table ID and number of entries.
Embeds struct RuntimeTableSpec. -/
structure RuntimeTableSpec where
  id : Int
  len : Nat
deriving DecidableEq, Repr

/-- Setup-time configuration of a runtime table: table ID and the content of
the first column.  Embeds struct RuntimeTableCfg. -/
structure RuntimeTableCfg (F : Type) where
  id : Int
  first_column : List F

/-- Returns the length of the runtime table (RuntimeTableCfg::len). -/
def RuntimeTableCfg.len {F : Type} (cfg : RuntimeTableCfg F) : Nat :=
  cfg.first_column.length

/-- Returns true if the runtime table is empty (RuntimeTableCfg::is_empty). -/
def RuntimeTableCfg.is_empty {F : Type} (cfg : RuntimeTableCfg F) : Bool :=
  cfg.first_column.isEmpty

/-- A prover-time runtime table: id plus a single data column.
Embeds struct RuntimeTable. -/
structure RuntimeTable (F : Type) where
  id : Int
  data : List F

/-- Embeds the conversion impl From RuntimeTableCfg for RuntimeTableSpec:
keeps the id and derives len from the first column. -/
def RuntimeTableCfg.toSpec {F : Type} (rt_cfg : RuntimeTableCfg F) : RuntimeTableSpec :=
  { id := rt_cfg.id, len := rt_cfg.first_column.length }

/-- Modelled from the spec: the external expression engine's column names.
Only the two columns used by the runtime-table constraint are needed:
the runtime-table value column and the runtime-table selector column
(Column::LookupRuntimeTable, Column::LookupRuntimeSelector). -/
inductive LookupColumn where
  | LookupRuntimeTable
  | LookupRuntimeSelector
deriving DecidableEq, Repr

/-- The current-or-next row discriminator (gate::CurrOrNext). -/
inductive CurrOrNext where
  | Curr
  | Next
deriving DecidableEq, Repr

/-- Modelled from the spec: the fragment of the external expression engine
(expr::prologue::E) used by the runtime-table constraint — a cell reference
resolved by column and row, and a product of expressions. -/
inductive E (F : Type) where
  | cell (col : LookupColumn) (row : CurrOrNext)
  | mul (a b : E F)

/-- Evaluation of an expression under an assignment of field values to
(column, row) cells.  Modelled from the spec: the expression engine is an
external collaborator that evaluates cell references and products. -/
def E.eval {F : Type} [Mul F] (env : LookupColumn → CurrOrNext → F) : E F → F
  | E.cell col row => env col row
  | E.mul a b => a.eval env * b.eval env

/-- The single constraint expression emitted by the runtime-table subsystem:
runtime_table * selector_RT.  Embeds the body of fn constraints. -/
def rtCheck (F : Type) : E F :=
  E.mul (E.cell LookupColumn.LookupRuntimeTable CurrOrNext.Curr)
    (E.cell LookupColumn.LookupRuntimeSelector CurrOrNext.Curr)

/-- Embeds fn constraints: returns the single gating constraint. -/
def constraints (F : Type) : List (E F) :=
  [rtCheck F]

/-! ### Claims C4 and C5 -/

/-- C4: constraints() returns exactly one constraint, the product of the
runtime-table value cell and the runtime-table selector cell, both read at
the current row; under evaluation, selector = 1 with a nonzero value yields
a nonzero result, while selector = 0 with any value, or selector = 1 with
value = 0, yields zero. -/
theorem c4_constraints_single_product (F : Type) [Field F]
    (env : LookupColumn → CurrOrNext → F) :
    constraints F =
      [E.mul (E.cell LookupColumn.LookupRuntimeTable CurrOrNext.Curr)
        (E.cell LookupColumn.LookupRuntimeSelector CurrOrNext.Curr)] ∧
    (env LookupColumn.LookupRuntimeSelector CurrOrNext.Curr = 1 →
      env LookupColumn.LookupRuntimeTable CurrOrNext.Curr ≠ 0 →
      E.eval env (rtCheck F) ≠ 0) ∧
    (env LookupColumn.LookupRuntimeSelector CurrOrNext.Curr = 0 →
      E.eval env (rtCheck F) = 0) ∧
    (env LookupColumn.LookupRuntimeSelector CurrOrNext.Curr = 1 →
      env LookupColumn.LookupRuntimeTable CurrOrNext.Curr = 0 →
      E.eval env (rtCheck F) = 0) := by
  refine ⟨rfl, ?_, ?_, ?_⟩
  · intro hsel hval
    simp [rtCheck, E.eval, hsel, hval]
  · intro hsel
    simp [rtCheck, E.eval, hsel]
  · intro hsel hval
    simp [rtCheck, E.eval, hsel, hval]

/-- A concrete evaluation environment: runtime-table value 5, selector 1. -/
def envOnNonzero : LookupColumn → CurrOrNext → ℚ :=
  fun col _ =>
    match col with
    | LookupColumn.LookupRuntimeTable => 5
    | LookupColumn.LookupRuntimeSelector => 1

/-- Witness for C4 at a concrete environment: selector 1 and value 5 give a
violated (nonzero) constraint. -/
theorem c4_constraints_single_product_witness :
    E.eval envOnNonzero (rtCheck ℚ) ≠ 0 :=
  (c4_constraints_single_product ℚ envOnNonzero).2.1 rfl (by norm_num [envOnNonzero])

/-- C5: converting a runtime-table configuration to a specification keeps
exactly the id and the derived length of the first column, and a
specification holds nothing else. -/
theorem c5_cfg_to_spec_projection (F : Type) (cfg : RuntimeTableCfg F) :
    cfg.toSpec = { id := cfg.id, len := cfg.first_column.length } :=
  rfl

/-! ### Keccak trace-column layout (optimism/src/keccak/column.rs)

Compile-time constants.  QUARTERS, RATE_IN_BYTES, the per-phase offsets into
the current row, and the current/next row widths are imported by column.rs
from the kimchi keccak constants module; their values are the ones documented
in the column.rs source comments (Curr ranges and Next range per variant). -/

/-- Modelled from the spec: kimchi keccak constant QUARTERS (round constants
group width, column.rs comment: 4 quarters). -/
def QUARTERS : Nat := 4

/-- Modelled from the spec: kimchi keccak constant RATE_IN_BYTES (column.rs
comment: 136 boolean values). -/
def RATE_IN_BYTES : Nat := 136

/-- Modelled from the spec: current-row width (column.rs comment:
Curr is indexed over the half-open range 0..1965). -/
def ZKVM_KECCAK_COLS_CURR : Nat := 1965

/-- Modelled from the spec: next-row width (column.rs comment:
Next is indexed over the half-open range 0..100). -/
def ZKVM_KECCAK_COLS_NEXT : Nat := 100

def MODE_FLAGS_COLS_LENGTH : Nat := 7

def SUFFIX_COLS_LENGTH : Nat := 5

/-- Total addressable width of a row container, as computed in column.rs. -/
def ZKVM_KECCAK_COLS_LENGTH : Nat :=
  ZKVM_KECCAK_COLS_CURR + ZKVM_KECCAK_COLS_NEXT + QUARTERS + RATE_IN_BYTES +
    SUFFIX_COLS_LENGTH + MODE_FLAGS_COLS_LENGTH + 2

def FLAG_ROUND_OFFSET : Nat := 0
def FLAG_ABSORB_OFFSET : Nat := 1
def FLAG_SQUEEZE_OFFSET : Nat := 2
def FLAG_ROOT_OFFSET : Nat := 3
def FLAG_PAD_LENGTH_OFFSET : Nat := 4
def FLAG_INV_PAD_LENGTH_OFFSET : Nat := 5
def FLAG_TWO_TO_PAD_OFFSET : Nat := 6

/-- Modelled from the spec: offsets of the per-phase sub-ranges of the
current row, imported by column.rs from the kimchi keccak constants module;
values are the range starts documented in the column.rs comments. -/
def THETA_SHIFTS_C_OFF : Nat := 100
def THETA_DENSE_C_OFF : Nat := 180
def THETA_QUOTIENT_C_OFF : Nat := 200
def THETA_REMAINDER_C_OFF : Nat := 205
def THETA_DENSE_ROT_C_OFF : Nat := 225
def THETA_EXPAND_ROT_C_OFF : Nat := 245
def PIRHO_SHIFTS_E_OFF : Nat := 265
def PIRHO_DENSE_E_OFF : Nat := 665
def PIRHO_QUOTIENT_E_OFF : Nat := 765
def PIRHO_REMAINDER_E_OFF : Nat := 865
def PIRHO_DENSE_ROT_E_OFF : Nat := 965
def PIRHO_EXPAND_ROT_E_OFF : Nat := 1065
def CHI_SHIFTS_B_OFF : Nat := 1165
def CHI_SHIFTS_SUM_OFF : Nat := 1565
def SPONGE_NEW_STATE_OFF : Nat := 100
def SPONGE_BYTES_OFF : Nat := 200
def SPONGE_SHIFTS_OFF : Nat := 400

/-- The column selector: a symbolic name for every addressable cell of a
Keccak trace row.  Embeds enum KeccakColumn; parametrized variants carry the
sub-index as a natural number. -/
inductive KeccakColumn where
  | HashIndex
  | StepIndex
  | FlagRound
  | FlagAbsorb
  | FlagSqueeze
  | FlagRoot
  | PadLength
  | InvPadLength
  | TwoToPad
  | PadBytesFlags (idx : Nat)
  | PadSuffix (idx : Nat)
  | RoundConstants (idx : Nat)
  | Input (idx : Nat)
  | ThetaShiftsC (idx : Nat)
  | ThetaDenseC (idx : Nat)
  | ThetaQuotientC (idx : Nat)
  | ThetaRemainderC (idx : Nat)
  | ThetaDenseRotC (idx : Nat)
  | ThetaExpandRotC (idx : Nat)
  | PiRhoShiftsE (idx : Nat)
  | PiRhoDenseE (idx : Nat)
  | PiRhoQuotientE (idx : Nat)
  | PiRhoRemainderE (idx : Nat)
  | PiRhoDenseRotE (idx : Nat)
  | PiRhoExpandRotE (idx : Nat)
  | ChiShiftsB (idx : Nat)
  | ChiShiftsSum (idx : Nat)
  | SpongeNewState (idx : Nat)
  | SpongeBytes (idx : Nat)
  | SpongeShifts (idx : Nat)
  | Output (idx : Nat)
deriving DecidableEq, Repr

/-- The row container: the physical storage of one Keccak trace row.
Embeds struct KeccakColumns; the fixed-size arrays become functions
from Fin of the declared width. -/
@[ext]
structure KeccakColumns (T : Type) where
  hash_index : T
  step_index : T
  mode_flags : Fin MODE_FLAGS_COLS_LENGTH → T
  pad_bytes_flags : Fin RATE_IN_BYTES → T
  pad_suffix : Fin SUFFIX_COLS_LENGTH → T
  round_constants : Fin QUARTERS → T
  curr : Fin ZKVM_KECCAK_COLS_CURR → T
  next : Fin ZKVM_KECCAK_COLS_NEXT → T

/-- Embeds the Default impl for KeccakColumns: every cell is T::zero().
The source also requires the One bound though it only uses zero. -/
def KeccakColumns.default (T : Type) [Zero T] [One T] : KeccakColumns T where
  hash_index := 0
  step_index := 0
  mode_flags := fun _ => 0
  pad_bytes_flags := fun _ => 0
  pad_suffix := fun _ => 0
  round_constants := fun _ => 0
  curr := fun _ => 0
  next := fun _ => 0

/-- Rust read access arr of idx on a fixed-size array: some value in bounds,
none (panic) out of bounds. -/
def arrGet {T : Type} {n : Nat} (f : Fin n → T) (i : Nat) : Option T :=
  if h : i < n then some (f ⟨i, h⟩) else none

/-- Rust write access through a mutable reference into a fixed-size array:
some updated array in bounds, none (panic) out of bounds. -/
def arrSet {T : Type} {n : Nat} (f : Fin n → T) (i : Nat) (v : T) : Option (Fin n → T) :=
  if h : i < n then some (Function.update f ⟨i, h⟩ v) else none

/-- Embeds impl Index for KeccakColumns: resolves a column selector to the
value stored at its physical slot; none embeds the panic of an out-of-bounds
array access. -/
def KeccakColumns.index {T : Type} (r : KeccakColumns T) : KeccakColumn → Option T
  | KeccakColumn.HashIndex => some r.hash_index
  | KeccakColumn.StepIndex => some r.step_index
  | KeccakColumn.FlagRound => arrGet r.mode_flags FLAG_ROUND_OFFSET
  | KeccakColumn.FlagAbsorb => arrGet r.mode_flags FLAG_ABSORB_OFFSET
  | KeccakColumn.FlagSqueeze => arrGet r.mode_flags FLAG_SQUEEZE_OFFSET
  | KeccakColumn.FlagRoot => arrGet r.mode_flags FLAG_ROOT_OFFSET
  | KeccakColumn.PadLength => arrGet r.mode_flags FLAG_PAD_LENGTH_OFFSET
  | KeccakColumn.InvPadLength => arrGet r.mode_flags FLAG_INV_PAD_LENGTH_OFFSET
  | KeccakColumn.TwoToPad => arrGet r.mode_flags FLAG_TWO_TO_PAD_OFFSET
  | KeccakColumn.PadBytesFlags idx => arrGet r.pad_bytes_flags idx
  | KeccakColumn.PadSuffix idx => arrGet r.pad_suffix idx
  | KeccakColumn.RoundConstants idx => arrGet r.round_constants idx
  | KeccakColumn.Input idx => arrGet r.curr idx
  | KeccakColumn.ThetaShiftsC idx => arrGet r.curr (THETA_SHIFTS_C_OFF + idx)
  | KeccakColumn.ThetaDenseC idx => arrGet r.curr (THETA_DENSE_C_OFF + idx)
  | KeccakColumn.ThetaQuotientC idx => arrGet r.curr (THETA_QUOTIENT_C_OFF + idx)
  | KeccakColumn.ThetaRemainderC idx => arrGet r.curr (THETA_REMAINDER_C_OFF + idx)
  | KeccakColumn.ThetaDenseRotC idx => arrGet r.curr (THETA_DENSE_ROT_C_OFF + idx)
  | KeccakColumn.ThetaExpandRotC idx => arrGet r.curr (THETA_EXPAND_ROT_C_OFF + idx)
  | KeccakColumn.PiRhoShiftsE idx => arrGet r.curr (PIRHO_SHIFTS_E_OFF + idx)
  | KeccakColumn.PiRhoDenseE idx => arrGet r.curr (PIRHO_DENSE_E_OFF + idx)
  | KeccakColumn.PiRhoQuotientE idx => arrGet r.curr (PIRHO_QUOTIENT_E_OFF + idx)
  | KeccakColumn.PiRhoRemainderE idx => arrGet r.curr (PIRHO_REMAINDER_E_OFF + idx)
  | KeccakColumn.PiRhoDenseRotE idx => arrGet r.curr (PIRHO_DENSE_ROT_E_OFF + idx)
  | KeccakColumn.PiRhoExpandRotE idx => arrGet r.curr (PIRHO_EXPAND_ROT_E_OFF + idx)
  | KeccakColumn.ChiShiftsB idx => arrGet r.curr (CHI_SHIFTS_B_OFF + idx)
  | KeccakColumn.ChiShiftsSum idx => arrGet r.curr (CHI_SHIFTS_SUM_OFF + idx)
  | KeccakColumn.SpongeNewState idx => arrGet r.curr (SPONGE_NEW_STATE_OFF + idx)
  | KeccakColumn.SpongeBytes idx => arrGet r.curr (SPONGE_BYTES_OFF + idx)
  | KeccakColumn.SpongeShifts idx => arrGet r.curr (SPONGE_SHIFTS_OFF + idx)
  | KeccakColumn.Output idx => arrGet r.next idx

/-- Embeds impl IndexMut for KeccakColumns: obtains the mutable slot a column
selector resolves to and stores v there; none embeds the panic of an
out-of-bounds array access. -/
def KeccakColumns.index_mut {T : Type} (r : KeccakColumns T) (c : KeccakColumn) (v : T) :
    Option (KeccakColumns T) :=
  match c with
  | KeccakColumn.HashIndex => some { r with hash_index := v }
  | KeccakColumn.StepIndex => some { r with step_index := v }
  | KeccakColumn.FlagRound =>
      Option.map (fun a => { r with mode_flags := a }) (arrSet r.mode_flags FLAG_ROUND_OFFSET v)
  | KeccakColumn.FlagAbsorb =>
      Option.map (fun a => { r with mode_flags := a }) (arrSet r.mode_flags FLAG_ABSORB_OFFSET v)
  | KeccakColumn.FlagSqueeze =>
      Option.map (fun a => { r with mode_flags := a }) (arrSet r.mode_flags FLAG_SQUEEZE_OFFSET v)
  | KeccakColumn.FlagRoot =>
      Option.map (fun a => { r with mode_flags := a }) (arrSet r.mode_flags FLAG_ROOT_OFFSET v)
  | KeccakColumn.PadLength =>
      Option.map (fun a => { r with mode_flags := a }) (arrSet r.mode_flags FLAG_PAD_LENGTH_OFFSET v)
  | KeccakColumn.InvPadLength =>
      Option.map (fun a => { r with mode_flags := a }) (arrSet r.mode_flags FLAG_INV_PAD_LENGTH_OFFSET v)
  | KeccakColumn.TwoToPad =>
      Option.map (fun a => { r with mode_flags := a }) (arrSet r.mode_flags FLAG_TWO_TO_PAD_OFFSET v)
  | KeccakColumn.PadBytesFlags idx =>
      Option.map (fun a => { r with pad_bytes_flags := a }) (arrSet r.pad_bytes_flags idx v)
  | KeccakColumn.PadSuffix idx =>
      Option.map (fun a => { r with pad_suffix := a }) (arrSet r.pad_suffix idx v)
  | KeccakColumn.RoundConstants idx =>
      Option.map (fun a => { r with round_constants := a }) (arrSet r.round_constants idx v)
  | KeccakColumn.Input idx =>
      Option.map (fun a => { r with curr := a }) (arrSet r.curr idx v)
  | KeccakColumn.ThetaShiftsC idx =>
      Option.map (fun a => { r with curr := a }) (arrSet r.curr (THETA_SHIFTS_C_OFF + idx) v)
  | KeccakColumn.ThetaDenseC idx =>
      Option.map (fun a => { r with curr := a }) (arrSet r.curr (THETA_DENSE_C_OFF + idx) v)
  | KeccakColumn.ThetaQuotientC idx =>
      Option.map (fun a => { r with curr := a }) (arrSet r.curr (THETA_QUOTIENT_C_OFF + idx) v)
  | KeccakColumn.ThetaRemainderC idx =>
      Option.map (fun a => { r with curr := a }) (arrSet r.curr (THETA_REMAINDER_C_OFF + idx) v)
  | KeccakColumn.ThetaDenseRotC idx =>
      Option.map (fun a => { r with curr := a }) (arrSet r.curr (THETA_DENSE_ROT_C_OFF + idx) v)
  | KeccakColumn.ThetaExpandRotC idx =>
      Option.map (fun a => { r with curr := a }) (arrSet r.curr (THETA_EXPAND_ROT_C_OFF + idx) v)
  | KeccakColumn.PiRhoShiftsE idx =>
      Option.map (fun a => { r with curr := a }) (arrSet r.curr (PIRHO_SHIFTS_E_OFF + idx) v)
  | KeccakColumn.PiRhoDenseE idx =>
      Option.map (fun a => { r with curr := a }) (arrSet r.curr (PIRHO_DENSE_E_OFF + idx) v)
  | KeccakColumn.PiRhoQuotientE idx =>
      Option.map (fun a => { r with curr := a }) (arrSet r.curr (PIRHO_QUOTIENT_E_OFF + idx) v)
  | KeccakColumn.PiRhoRemainderE idx =>
      Option.map (fun a => { r with curr := a }) (arrSet r.curr (PIRHO_REMAINDER_E_OFF + idx) v)
  | KeccakColumn.PiRhoDenseRotE idx =>
      Option.map (fun a => { r with curr := a }) (arrSet r.curr (PIRHO_DENSE_ROT_E_OFF + idx) v)
  | KeccakColumn.PiRhoExpandRotE idx =>
      Option.map (fun a => { r with curr := a }) (arrSet r.curr (PIRHO_EXPAND_ROT_E_OFF + idx) v)
  | KeccakColumn.ChiShiftsB idx =>
      Option.map (fun a => { r with curr := a }) (arrSet r.curr (CHI_SHIFTS_B_OFF + idx) v)
  | KeccakColumn.ChiShiftsSum idx =>
      Option.map (fun a => { r with curr := a }) (arrSet r.curr (CHI_SHIFTS_SUM_OFF + idx) v)
  | KeccakColumn.SpongeNewState idx =>
      Option.map (fun a => { r with curr := a }) (arrSet r.curr (SPONGE_NEW_STATE_OFF + idx) v)
  | KeccakColumn.SpongeBytes idx =>
      Option.map (fun a => { r with curr := a }) (arrSet r.curr (SPONGE_BYTES_OFF + idx) v)
  | KeccakColumn.SpongeShifts idx =>
      Option.map (fun a => { r with curr := a }) (arrSet r.curr (SPONGE_SHIFTS_OFF + idx) v)
  | KeccakColumn.Output idx =>
      Option.map (fun a => { r with next := a }) (arrSet r.next idx v)

/-- Embeds impl IntoIterator for KeccakColumns (owned sequential traversal):
the cells in the canonical order hash_index, step_index, mode_flags,
pad_bytes_flags, pad_suffix, round_constants, curr, next. -/
def KeccakColumns.into_iter {T : Type} (r : KeccakColumns T) : List T :=
  [r.hash_index, r.step_index] ++ List.ofFn r.mode_flags ++
    List.ofFn r.pad_bytes_flags ++ List.ofFn r.pad_suffix ++
    List.ofFn r.round_constants ++ List.ofFn r.curr ++ List.ofFn r.next

/-- Embeds impl IntoParallelIterator for KeccakColumns (owned parallel
traversal): the vector of cells the parallel iterator is built over, pushed
in the same canonical order as the sequential traversal. -/
def KeccakColumns.into_par_iter {T : Type} (r : KeccakColumns T) : List T :=
  [r.hash_index, r.step_index] ++ List.ofFn r.mode_flags ++
    List.ofFn r.pad_bytes_flags ++ List.ofFn r.pad_suffix ++
    List.ofFn r.round_constants ++ List.ofFn r.curr ++ List.ofFn r.next

/-- Embeds Vec::drain(len - k ..) followed by collect: removes and returns
the last k elements, leaving the rest; none embeds the panic when the vector
holds fewer than k elements. -/
def drainLast {T : Type} (l : List T) (k : Nat) : Option (List T × List T) :=
  if k ≤ l.length then some (l.take (l.length - k), l.drop (l.length - k)) else none

/-- Embeds Vec::try_into for a fixed-size array followed by unwrap: succeeds
exactly when the vector length equals the declared array width. -/
def toFn {T : Type} (l : List T) (k : Nat) : Option (Fin k → T) :=
  if h : l.length = k then some (fun i => l.get (Fin.cast h.symm i)) else none

/-- Embeds impl FromParallelIterator for KeccakColumns: reconstruction of a
row container from a flat sequence by draining the groups from the tail in
reverse canonical order, then popping step_index and hash_index; none embeds
any panic (drain out of range, try_into failure, pop of empty vector). -/
def KeccakColumns.from_par_iter {T : Type} (l : List T) : Option (KeccakColumns T) :=
  (drainLast l ZKVM_KECCAK_COLS_NEXT).bind fun d1 =>
  (toFn d1.2 ZKVM_KECCAK_COLS_NEXT).bind fun nextArr =>
  (drainLast d1.1 ZKVM_KECCAK_COLS_CURR).bind fun d2 =>
  (toFn d2.2 ZKVM_KECCAK_COLS_CURR).bind fun currArr =>
  (drainLast d2.1 QUARTERS).bind fun d3 =>
  (toFn d3.2 QUARTERS).bind fun rcArr =>
  (drainLast d3.1 SUFFIX_COLS_LENGTH).bind fun d4 =>
  (toFn d4.2 SUFFIX_COLS_LENGTH).bind fun psArr =>
  (drainLast d4.1 RATE_IN_BYTES).bind fun d5 =>
  (toFn d5.2 RATE_IN_BYTES).bind fun pbArr =>
  (drainLast d5.1 MODE_FLAGS_COLS_LENGTH).bind fun d6 =>
  (toFn d6.2 MODE_FLAGS_COLS_LENGTH).bind fun mfArr =>
  d6.1.getLast?.bind fun stepIndex =>
  (d6.1.dropLast.getLast?).map fun hashIndex =>
  { hash_index := hashIndex, step_index := stepIndex, mode_flags := mfArr,
    pad_bytes_flags := pbArr, pad_suffix := psArr, round_constants := rcArr,
    curr := currArr, next := nextArr }

/-! ### Claims C6, C7, C9 -/

/-- C6: the default row container has every cell equal to the additive
identity of T: hash_index, step_index, and every element of mode_flags,
pad_bytes_flags, pad_suffix, round_constants, curr and next. -/
theorem c6_default_all_zero (T : Type) [Zero T] [One T] :
    (KeccakColumns.default T).hash_index = 0 ∧
    (KeccakColumns.default T).step_index = 0 ∧
    (∀ i, (KeccakColumns.default T).mode_flags i = 0) ∧
    (∀ i, (KeccakColumns.default T).pad_bytes_flags i = 0) ∧
    (∀ i, (KeccakColumns.default T).pad_suffix i = 0) ∧
    (∀ i, (KeccakColumns.default T).round_constants i = 0) ∧
    (∀ i, (KeccakColumns.default T).curr i = 0) ∧
    (∀ i, (KeccakColumns.default T).next i = 0) := by
  refine ⟨rfl, rfl, fun _ => rfl, fun _ => rfl, fun _ => rfl, fun _ => rfl,
    fun _ => rfl, fun _ => rfl⟩

/-- C7: the owned sequential flattening yields the cells in the canonical
order hash_index, step_index, mode_flags, pad_bytes_flags, pad_suffix,
round_constants, curr, next, and its total length is
2 + 7 + 136 + 5 + 4 + C + N where C and N are the current/next row widths. -/
theorem c7_into_iter_canonical_order {T : Type} (r : KeccakColumns T) :
    r.into_iter =
      [r.hash_index, r.step_index] ++ List.ofFn r.mode_flags ++
        List.ofFn r.pad_bytes_flags ++ List.ofFn r.pad_suffix ++
        List.ofFn r.round_constants ++ List.ofFn r.curr ++ List.ofFn r.next ∧
    r.into_iter.length =
      2 + 7 + 136 + 5 + 4 + ZKVM_KECCAK_COLS_CURR + ZKVM_KECCAK_COLS_NEXT := by
  refine ⟨rfl, ?_⟩
  simp only [KeccakColumns.into_iter, List.length_append, List.length_ofFn,
    List.length_cons, List.length_nil]
  decide

/-- C9: the sequence of cells underlying the owned parallel traversal is
equal, element by element and in order, to the sequence produced by the
owned sequential traversal. -/
theorem c9_par_iter_eq_seq_iter {T : Type} (r : KeccakColumns T) :
    r.into_par_iter = r.into_iter :=
  rfl

/-! ### Helper lemmas for reconstruction -/

lemma drainLast_append {T : Type} {k : Nat} (a b : List T) (h : b.length = k) :
    drainLast (a ++ b) k = some (a, b) := by
  subst h
  rw [drainLast, if_pos (by simp : b.length ≤ (a ++ b).length)]
  have h1 : (a ++ b).length - b.length = a.length := by simp
  rw [h1, List.take_left, List.drop_left]

lemma toFn_ofFn {T : Type} {k : Nat} (f : Fin k → T) :
    toFn (List.ofFn f) k = some f := by
  have h : (List.ofFn f).length = k := List.length_ofFn f
  simp only [toFn, dif_pos h]
  congr 1
  funext i
  simp [List.get_ofFn]

/-! ### Claim C1 -/

set_option maxRecDepth 8192 in
/-- C1: flattening a row container via the owned sequential traversal and
reconstructing via from_par_iter yields the same row container,
cell for cell. -/
theorem c1_flatten_reconstruct_roundtrip {T : Type} (r : KeccakColumns T) :
    KeccakColumns.from_par_iter r.into_iter = some r := by
  have e1 : drainLast r.into_iter ZKVM_KECCAK_COLS_NEXT =
      some ([r.hash_index, r.step_index] ++ List.ofFn r.mode_flags ++
        List.ofFn r.pad_bytes_flags ++ List.ofFn r.pad_suffix ++
        List.ofFn r.round_constants ++ List.ofFn r.curr, List.ofFn r.next) :=
    drainLast_append _ _ (List.length_ofFn _)
  have e2 : drainLast ([r.hash_index, r.step_index] ++ List.ofFn r.mode_flags ++
      List.ofFn r.pad_bytes_flags ++ List.ofFn r.pad_suffix ++
      List.ofFn r.round_constants ++ List.ofFn r.curr) ZKVM_KECCAK_COLS_CURR =
      some ([r.hash_index, r.step_index] ++ List.ofFn r.mode_flags ++
        List.ofFn r.pad_bytes_flags ++ List.ofFn r.pad_suffix ++
        List.ofFn r.round_constants, List.ofFn r.curr) :=
    drainLast_append _ _ (List.length_ofFn _)
  have e3 : drainLast ([r.hash_index, r.step_index] ++ List.ofFn r.mode_flags ++
      List.ofFn r.pad_bytes_flags ++ List.ofFn r.pad_suffix ++
      List.ofFn r.round_constants) QUARTERS =
      some ([r.hash_index, r.step_index] ++ List.ofFn r.mode_flags ++
        List.ofFn r.pad_bytes_flags ++ List.ofFn r.pad_suffix,
        List.ofFn r.round_constants) :=
    drainLast_append _ _ (List.length_ofFn _)
  have e4 : drainLast ([r.hash_index, r.step_index] ++ List.ofFn r.mode_flags ++
      List.ofFn r.pad_bytes_flags ++ List.ofFn r.pad_suffix) SUFFIX_COLS_LENGTH =
      some ([r.hash_index, r.step_index] ++ List.ofFn r.mode_flags ++
        List.ofFn r.pad_bytes_flags, List.ofFn r.pad_suffix) :=
    drainLast_append _ _ (List.length_ofFn _)
  have e5 : drainLast ([r.hash_index, r.step_index] ++ List.ofFn r.mode_flags ++
      List.ofFn r.pad_bytes_flags) RATE_IN_BYTES =
      some ([r.hash_index, r.step_index] ++ List.ofFn r.mode_flags,
        List.ofFn r.pad_bytes_flags) :=
    drainLast_append _ _ (List.length_ofFn _)
  have e6 : drainLast ([r.hash_index, r.step_index] ++ List.ofFn r.mode_flags)
      MODE_FLAGS_COLS_LENGTH =
      some ([r.hash_index, r.step_index], List.ofFn r.mode_flags) :=
    drainLast_append _ _ (List.length_ofFn _)
  unfold KeccakColumns.from_par_iter
  rw [e1, Option.some_bind]
  dsimp only
  rw [toFn_ofFn, Option.some_bind, e2, Option.some_bind]
  dsimp only
  rw [toFn_ofFn, Option.some_bind, e3, Option.some_bind]
  dsimp only
  rw [toFn_ofFn, Option.some_bind, e4, Option.some_bind]
  dsimp only
  rw [toFn_ofFn, Option.some_bind, e5, Option.some_bind]
  dsimp only
  rw [toFn_ofFn, Option.some_bind, e6, Option.some_bind]
  dsimp only
  rw [toFn_ofFn, Option.some_bind]
  rfl

lemma drainLast_of_le {T : Type} {l : List T} {k : Nat} (h : k ≤ l.length) :
    drainLast l k = some (l.take (l.length - k), l.drop (l.length - k)) := by
  simp [drainLast, h]

lemma drainLast_of_lt {T : Type} {l : List T} {k : Nat} (h : l.length < k) :
    drainLast l k = none := by
  rw [drainLast, if_neg]
  omega

lemma toFn_of_length {T : Type} {l : List T} {k : Nat} (h : l.length = k) :
    toFn l k = some (fun i => l.get (Fin.cast h.symm i)) :=
  dif_pos h


set_option maxHeartbeats 2000000 in
lemma from_par_iter_eq_none {T : Type} (l : List T)
    (h : l.length < ZKVM_KECCAK_COLS_LENGTH) :
    KeccakColumns.from_par_iter l = none := by
  have hL : ZKVM_KECCAK_COLS_LENGTH = 2219 := rfl
  have cN : ZKVM_KECCAK_COLS_NEXT = 100 := rfl
  have cC : ZKVM_KECCAK_COLS_CURR = 1965 := rfl
  have cQ : QUARTERS = 4 := rfl
  have cS : SUFFIX_COLS_LENGTH = 5 := rfl
  have cR : RATE_IN_BYTES = 136 := rfl
  have cM : MODE_FLAGS_COLS_LENGTH = 7 := rfl
  rw [hL] at h
  unfold KeccakColumns.from_par_iter
  by_cases hl1 : 100 ≤ l.length
  case neg =>
    rw [drainLast_of_lt (by rw [cN]; omega)]
    rfl
  rw [drainLast_of_le (by rw [cN]; omega), Option.some_bind]
  dsimp only
  rw [toFn_of_length (by rw [List.length_drop, cN]; omega), Option.some_bind]
  have hll1 : (l.take (l.length - ZKVM_KECCAK_COLS_NEXT)).length = l.length - 100 := by
    rw [List.length_take, cN]; omega
  generalize hgl1 : l.take (l.length - ZKVM_KECCAK_COLS_NEXT) = l1
  rw [hgl1] at hll1
  by_cases hl2 : 1965 ≤ l1.length
  case neg =>
    rw [drainLast_of_lt (by rw [cC]; omega)]
    rfl
  rw [drainLast_of_le (by rw [cC]; omega), Option.some_bind]
  dsimp only
  rw [toFn_of_length (by rw [List.length_drop, cC]; omega), Option.some_bind]
  have hll2 : (l1.take (l1.length - ZKVM_KECCAK_COLS_CURR)).length = l.length - 2065 := by
    rw [List.length_take, cC]; omega
  generalize hgl2 : l1.take (l1.length - ZKVM_KECCAK_COLS_CURR) = l2
  rw [hgl2] at hll2
  by_cases hl3 : 4 ≤ l2.length
  case neg =>
    rw [drainLast_of_lt (by rw [cQ]; omega)]
    rfl
  rw [drainLast_of_le (by rw [cQ]; omega), Option.some_bind]
  dsimp only
  rw [toFn_of_length (by rw [List.length_drop, cQ]; omega), Option.some_bind]
  have hll3 : (l2.take (l2.length - QUARTERS)).length = l.length - 2069 := by
    rw [List.length_take, cQ]; omega
  generalize hgl3 : l2.take (l2.length - QUARTERS) = l3
  rw [hgl3] at hll3
  by_cases hl4 : 5 ≤ l3.length
  case neg =>
    rw [drainLast_of_lt (by rw [cS]; omega)]
    rfl
  rw [drainLast_of_le (by rw [cS]; omega), Option.some_bind]
  dsimp only
  rw [toFn_of_length (by rw [List.length_drop, cS]; omega), Option.some_bind]
  have hll4 : (l3.take (l3.length - SUFFIX_COLS_LENGTH)).length = l.length - 2074 := by
    rw [List.length_take, cS]; omega
  generalize hgl4 : l3.take (l3.length - SUFFIX_COLS_LENGTH) = l4
  rw [hgl4] at hll4
  by_cases hl5 : 136 ≤ l4.length
  case neg =>
    rw [drainLast_of_lt (by rw [cR]; omega)]
    rfl
  rw [drainLast_of_le (by rw [cR]; omega), Option.some_bind]
  dsimp only
  rw [toFn_of_length (by rw [List.length_drop, cR]; omega), Option.some_bind]
  have hll5 : (l4.take (l4.length - RATE_IN_BYTES)).length = l.length - 2210 := by
    rw [List.length_take, cR]; omega
  generalize hgl5 : l4.take (l4.length - RATE_IN_BYTES) = l5
  rw [hgl5] at hll5
  by_cases hl6 : 7 ≤ l5.length
  case neg =>
    rw [drainLast_of_lt (by rw [cM]; omega)]
    rfl
  rw [drainLast_of_le (by rw [cM]; omega), Option.some_bind]
  dsimp only
  rw [toFn_of_length (by rw [List.length_drop, cM]; omega), Option.some_bind]
  have hll6 : (l5.take (l5.length - MODE_FLAGS_COLS_LENGTH)).length = l.length - 2217 := by
    rw [List.length_take, cM]; omega
  generalize hgl6 : l5.take (l5.length - MODE_FLAGS_COLS_LENGTH) = l6
  rw [hgl6] at hll6
  by_cases h7 : l6 = []
  case pos =>
    rw [h7]
    rfl
  obtain ⟨x, hx⟩ := Option.isSome_iff_exists.mp (List.getLast?_isSome.mpr h7)
  rw [hx, Option.some_bind]
  have hde : l6.dropLast = [] := by
    apply List.length_eq_zero.mp
    rw [List.length_dropLast]
    have hne : l6.length ≠ 0 := fun h0 => h7 (List.length_eq_zero.mp h0)
    omega
  rw [hde]
  rfl

set_option maxHeartbeats 2000000 in
lemma from_par_iter_isSome_of_long {T : Type} (l : List T)
    (h : ZKVM_KECCAK_COLS_LENGTH ≤ l.length) :
    (KeccakColumns.from_par_iter l).isSome := by
  have hL : ZKVM_KECCAK_COLS_LENGTH = 2219 := rfl
  have cN : ZKVM_KECCAK_COLS_NEXT = 100 := rfl
  have cC : ZKVM_KECCAK_COLS_CURR = 1965 := rfl
  have cQ : QUARTERS = 4 := rfl
  have cS : SUFFIX_COLS_LENGTH = 5 := rfl
  have cR : RATE_IN_BYTES = 136 := rfl
  have cM : MODE_FLAGS_COLS_LENGTH = 7 := rfl
  rw [hL] at h
  unfold KeccakColumns.from_par_iter
  rw [drainLast_of_le (by rw [cN]; omega), Option.some_bind]
  dsimp only
  rw [toFn_of_length (by rw [List.length_drop, cN]; omega), Option.some_bind]
  have hll1 : (l.take (l.length - ZKVM_KECCAK_COLS_NEXT)).length = l.length - 100 := by
    rw [List.length_take, cN]; omega
  generalize hgl1 : l.take (l.length - ZKVM_KECCAK_COLS_NEXT) = l1
  rw [hgl1] at hll1
  rw [drainLast_of_le (by rw [cC]; omega), Option.some_bind]
  dsimp only
  rw [toFn_of_length (by rw [List.length_drop, cC]; omega), Option.some_bind]
  have hll2 : (l1.take (l1.length - ZKVM_KECCAK_COLS_CURR)).length = l.length - 2065 := by
    rw [List.length_take, cC]; omega
  generalize hgl2 : l1.take (l1.length - ZKVM_KECCAK_COLS_CURR) = l2
  rw [hgl2] at hll2
  rw [drainLast_of_le (by rw [cQ]; omega), Option.some_bind]
  dsimp only
  rw [toFn_of_length (by rw [List.length_drop, cQ]; omega), Option.some_bind]
  have hll3 : (l2.take (l2.length - QUARTERS)).length = l.length - 2069 := by
    rw [List.length_take, cQ]; omega
  generalize hgl3 : l2.take (l2.length - QUARTERS) = l3
  rw [hgl3] at hll3
  rw [drainLast_of_le (by rw [cS]; omega), Option.some_bind]
  dsimp only
  rw [toFn_of_length (by rw [List.length_drop, cS]; omega), Option.some_bind]
  have hll4 : (l3.take (l3.length - SUFFIX_COLS_LENGTH)).length = l.length - 2074 := by
    rw [List.length_take, cS]; omega
  generalize hgl4 : l3.take (l3.length - SUFFIX_COLS_LENGTH) = l4
  rw [hgl4] at hll4
  rw [drainLast_of_le (by rw [cR]; omega), Option.some_bind]
  dsimp only
  rw [toFn_of_length (by rw [List.length_drop, cR]; omega), Option.some_bind]
  have hll5 : (l4.take (l4.length - RATE_IN_BYTES)).length = l.length - 2210 := by
    rw [List.length_take, cR]; omega
  generalize hgl5 : l4.take (l4.length - RATE_IN_BYTES) = l5
  rw [hgl5] at hll5
  rw [drainLast_of_le (by rw [cM]; omega), Option.some_bind]
  dsimp only
  rw [toFn_of_length (by rw [List.length_drop, cM]; omega), Option.some_bind]
  have hll6 : (l5.take (l5.length - MODE_FLAGS_COLS_LENGTH)).length = l.length - 2217 := by
    rw [List.length_take, cM]; omega
  generalize hgl6 : l5.take (l5.length - MODE_FLAGS_COLS_LENGTH) = l6
  rw [hgl6] at hll6
  have h7 : l6 ≠ [] := by
    intro he
    rw [he] at hll6
    simp at hll6
    omega
  obtain ⟨x, hx⟩ := Option.isSome_iff_exists.mp (List.getLast?_isSome.mpr h7)
  rw [hx, Option.some_bind]
  have h8 : l6.dropLast ≠ [] := by
    intro he
    have hlen := congrArg List.length he
    rw [List.length_dropLast] at hlen
    simp at hlen
    omega
  obtain ⟨y, hy⟩ := Option.isSome_iff_exists.mp (List.getLast?_isSome.mpr h8)
  rw [hy]
  rfl

/-! ### Claim C3

The original claim says reconstruction from a sequence of any wrong total
length fails fatally.  That holds for sequences shorter than the declared
total width, but a longer sequence reconstructs successfully from its tail,
silently dropping the leading extra elements (the leftover vector after the
two pops is discarded). -/

/-- C3 counterexample: a sequence one element longer than the declared total
width (2220 elements) reconstructs successfully instead of panicking. -/
theorem c3_counterexample_long_sequence_succeeds :
    (KeccakColumns.from_par_iter (List.replicate 2220 (0 : Int))).isSome ∧
    (List.replicate 2220 (0 : Int)).length ≠ ZKVM_KECCAK_COLS_LENGTH :=
  ⟨from_par_iter_isSome_of_long _ (by rw [List.length_replicate]; decide),
   by rw [List.length_replicate]; decide⟩

/-- C3 (amended): reconstructing from a flat sequence shorter than the
declared total width fails immediately and fatally (in particular a sequence
shorter by one element); a sequence of at least the declared total width
reconstructs successfully (a longer one silently drops its leading extra
elements). -/
theorem c3_short_reconstruction_fails {T : Type} (l : List T) :
    (l.length < ZKVM_KECCAK_COLS_LENGTH → KeccakColumns.from_par_iter l = none) ∧
    (ZKVM_KECCAK_COLS_LENGTH ≤ l.length → (KeccakColumns.from_par_iter l).isSome) :=
  ⟨from_par_iter_eq_none l, from_par_iter_isSome_of_long l⟩

/-- Witness for C3 at concrete inputs: a sequence shorter by one element
(length 2218) fails, and a sequence of full length plus one succeeds. -/
theorem c3_short_reconstruction_fails_witness :
    KeccakColumns.from_par_iter (List.replicate 2218 (0 : Int)) = none ∧
    (KeccakColumns.from_par_iter (List.replicate 2220 (0 : Int))).isSome :=
  ⟨(c3_short_reconstruction_fails _).1 (by rw [List.length_replicate]; decide),
   (c3_short_reconstruction_fails _).2 (by rw [List.length_replicate]; decide)⟩

/-! ### Physical slots and the addressing bookkeeping

The physical slot a column selector resolves to is the backing field of the
row container together with the offset inside that field, read off the match
arms of the Index/IndexMut impls. -/

/-- A physical slot of the row container: backing field plus offset. -/
inductive Loc where
  | hashIndex
  | stepIndex
  | modeFlags (i : Nat)
  | padBytesFlags (i : Nat)
  | padSuffix (i : Nat)
  | roundConstants (i : Nat)
  | curr (i : Nat)
  | next (i : Nat)
deriving DecidableEq, Repr

/-- The physical slot each column selector resolves to, following the match
arms shared by the Index and IndexMut impls. -/
def resolve : KeccakColumn → Loc
  | KeccakColumn.HashIndex => Loc.hashIndex
  | KeccakColumn.StepIndex => Loc.stepIndex
  | KeccakColumn.FlagRound => Loc.modeFlags FLAG_ROUND_OFFSET
  | KeccakColumn.FlagAbsorb => Loc.modeFlags FLAG_ABSORB_OFFSET
  | KeccakColumn.FlagSqueeze => Loc.modeFlags FLAG_SQUEEZE_OFFSET
  | KeccakColumn.FlagRoot => Loc.modeFlags FLAG_ROOT_OFFSET
  | KeccakColumn.PadLength => Loc.modeFlags FLAG_PAD_LENGTH_OFFSET
  | KeccakColumn.InvPadLength => Loc.modeFlags FLAG_INV_PAD_LENGTH_OFFSET
  | KeccakColumn.TwoToPad => Loc.modeFlags FLAG_TWO_TO_PAD_OFFSET
  | KeccakColumn.PadBytesFlags idx => Loc.padBytesFlags idx
  | KeccakColumn.PadSuffix idx => Loc.padSuffix idx
  | KeccakColumn.RoundConstants idx => Loc.roundConstants idx
  | KeccakColumn.Input idx => Loc.curr idx
  | KeccakColumn.ThetaShiftsC idx => Loc.curr (THETA_SHIFTS_C_OFF + idx)
  | KeccakColumn.ThetaDenseC idx => Loc.curr (THETA_DENSE_C_OFF + idx)
  | KeccakColumn.ThetaQuotientC idx => Loc.curr (THETA_QUOTIENT_C_OFF + idx)
  | KeccakColumn.ThetaRemainderC idx => Loc.curr (THETA_REMAINDER_C_OFF + idx)
  | KeccakColumn.ThetaDenseRotC idx => Loc.curr (THETA_DENSE_ROT_C_OFF + idx)
  | KeccakColumn.ThetaExpandRotC idx => Loc.curr (THETA_EXPAND_ROT_C_OFF + idx)
  | KeccakColumn.PiRhoShiftsE idx => Loc.curr (PIRHO_SHIFTS_E_OFF + idx)
  | KeccakColumn.PiRhoDenseE idx => Loc.curr (PIRHO_DENSE_E_OFF + idx)
  | KeccakColumn.PiRhoQuotientE idx => Loc.curr (PIRHO_QUOTIENT_E_OFF + idx)
  | KeccakColumn.PiRhoRemainderE idx => Loc.curr (PIRHO_REMAINDER_E_OFF + idx)
  | KeccakColumn.PiRhoDenseRotE idx => Loc.curr (PIRHO_DENSE_ROT_E_OFF + idx)
  | KeccakColumn.PiRhoExpandRotE idx => Loc.curr (PIRHO_EXPAND_ROT_E_OFF + idx)
  | KeccakColumn.ChiShiftsB idx => Loc.curr (CHI_SHIFTS_B_OFF + idx)
  | KeccakColumn.ChiShiftsSum idx => Loc.curr (CHI_SHIFTS_SUM_OFF + idx)
  | KeccakColumn.SpongeNewState idx => Loc.curr (SPONGE_NEW_STATE_OFF + idx)
  | KeccakColumn.SpongeBytes idx => Loc.curr (SPONGE_BYTES_OFF + idx)
  | KeccakColumn.SpongeShifts idx => Loc.curr (SPONGE_SHIFTS_OFF + idx)
  | KeccakColumn.Output idx => Loc.next idx

/-- Reading a physical slot: some value in bounds, none (panic) otherwise. -/
def readLoc {T : Type} (r : KeccakColumns T) : Loc → Option T
  | Loc.hashIndex => some r.hash_index
  | Loc.stepIndex => some r.step_index
  | Loc.modeFlags i => arrGet r.mode_flags i
  | Loc.padBytesFlags i => arrGet r.pad_bytes_flags i
  | Loc.padSuffix i => arrGet r.pad_suffix i
  | Loc.roundConstants i => arrGet r.round_constants i
  | Loc.curr i => arrGet r.curr i
  | Loc.next i => arrGet r.next i

/-- Writing a physical slot: some updated container in bounds, none (panic)
otherwise. -/
def writeLoc {T : Type} (r : KeccakColumns T) (l : Loc) (v : T) :
    Option (KeccakColumns T) :=
  match l with
  | Loc.hashIndex => some { r with hash_index := v }
  | Loc.stepIndex => some { r with step_index := v }
  | Loc.modeFlags i =>
      Option.map (fun a => { r with mode_flags := a }) (arrSet r.mode_flags i v)
  | Loc.padBytesFlags i =>
      Option.map (fun a => { r with pad_bytes_flags := a }) (arrSet r.pad_bytes_flags i v)
  | Loc.padSuffix i =>
      Option.map (fun a => { r with pad_suffix := a }) (arrSet r.pad_suffix i v)
  | Loc.roundConstants i =>
      Option.map (fun a => { r with round_constants := a }) (arrSet r.round_constants i v)
  | Loc.curr i =>
      Option.map (fun a => { r with curr := a }) (arrSet r.curr i v)
  | Loc.next i =>
      Option.map (fun a => { r with next := a }) (arrSet r.next i v)

/-- Whether a physical slot lies inside the bounds of its backing array. -/
def locInBounds : Loc → Prop
  | Loc.hashIndex => True
  | Loc.stepIndex => True
  | Loc.modeFlags i => i < MODE_FLAGS_COLS_LENGTH
  | Loc.padBytesFlags i => i < RATE_IN_BYTES
  | Loc.padSuffix i => i < SUFFIX_COLS_LENGTH
  | Loc.roundConstants i => i < QUARTERS
  | Loc.curr i => i < ZKVM_KECCAK_COLS_CURR
  | Loc.next i => i < ZKVM_KECCAK_COLS_NEXT

instance (l : Loc) : Decidable (locInBounds l) := by
  cases l <;> (unfold locInBounds; infer_instance)

/-- The position of a physical slot within the canonical flattening order. -/
def locPos : Loc → Nat
  | Loc.hashIndex => 0
  | Loc.stepIndex => 1
  | Loc.modeFlags i => 2 + i
  | Loc.padBytesFlags i => 9 + i
  | Loc.padSuffix i => 145 + i
  | Loc.roundConstants i => 150 + i
  | Loc.curr i => 154 + i
  | Loc.next i => 2119 + i

/-- The variant tag of a column selector, without its sub-index. -/
inductive KCKind where
  | HashIndex
  | StepIndex
  | FlagRound
  | FlagAbsorb
  | FlagSqueeze
  | FlagRoot
  | PadLength
  | InvPadLength
  | TwoToPad
  | PadBytesFlags
  | PadSuffix
  | RoundConstants
  | Input
  | ThetaShiftsC
  | ThetaDenseC
  | ThetaQuotientC
  | ThetaRemainderC
  | ThetaDenseRotC
  | ThetaExpandRotC
  | PiRhoShiftsE
  | PiRhoDenseE
  | PiRhoQuotientE
  | PiRhoRemainderE
  | PiRhoDenseRotE
  | PiRhoExpandRotE
  | ChiShiftsB
  | ChiShiftsSum
  | SpongeNewState
  | SpongeBytes
  | SpongeShifts
  | Output
deriving DecidableEq, Repr, Fintype

/-- The variant tag of a column selector. -/
def KeccakColumn.kind : KeccakColumn → KCKind
  | KeccakColumn.HashIndex => KCKind.HashIndex
  | KeccakColumn.StepIndex => KCKind.StepIndex
  | KeccakColumn.FlagRound => KCKind.FlagRound
  | KeccakColumn.FlagAbsorb => KCKind.FlagAbsorb
  | KeccakColumn.FlagSqueeze => KCKind.FlagSqueeze
  | KeccakColumn.FlagRoot => KCKind.FlagRoot
  | KeccakColumn.PadLength => KCKind.PadLength
  | KeccakColumn.InvPadLength => KCKind.InvPadLength
  | KeccakColumn.TwoToPad => KCKind.TwoToPad
  | KeccakColumn.PadBytesFlags _ => KCKind.PadBytesFlags
  | KeccakColumn.PadSuffix _ => KCKind.PadSuffix
  | KeccakColumn.RoundConstants _ => KCKind.RoundConstants
  | KeccakColumn.Input _ => KCKind.Input
  | KeccakColumn.ThetaShiftsC _ => KCKind.ThetaShiftsC
  | KeccakColumn.ThetaDenseC _ => KCKind.ThetaDenseC
  | KeccakColumn.ThetaQuotientC _ => KCKind.ThetaQuotientC
  | KeccakColumn.ThetaRemainderC _ => KCKind.ThetaRemainderC
  | KeccakColumn.ThetaDenseRotC _ => KCKind.ThetaDenseRotC
  | KeccakColumn.ThetaExpandRotC _ => KCKind.ThetaExpandRotC
  | KeccakColumn.PiRhoShiftsE _ => KCKind.PiRhoShiftsE
  | KeccakColumn.PiRhoDenseE _ => KCKind.PiRhoDenseE
  | KeccakColumn.PiRhoQuotientE _ => KCKind.PiRhoQuotientE
  | KeccakColumn.PiRhoRemainderE _ => KCKind.PiRhoRemainderE
  | KeccakColumn.PiRhoDenseRotE _ => KCKind.PiRhoDenseRotE
  | KeccakColumn.PiRhoExpandRotE _ => KCKind.PiRhoExpandRotE
  | KeccakColumn.ChiShiftsB _ => KCKind.ChiShiftsB
  | KeccakColumn.ChiShiftsSum _ => KCKind.ChiShiftsSum
  | KeccakColumn.SpongeNewState _ => KCKind.SpongeNewState
  | KeccakColumn.SpongeBytes _ => KCKind.SpongeBytes
  | KeccakColumn.SpongeShifts _ => KCKind.SpongeShifts
  | KeccakColumn.Output _ => KCKind.Output

/-- The sub-index of a column selector (0 for bare variants). -/
def KeccakColumn.subIdx : KeccakColumn → Nat
  | KeccakColumn.PadBytesFlags idx => idx
  | KeccakColumn.PadSuffix idx => idx
  | KeccakColumn.RoundConstants idx => idx
  | KeccakColumn.Input idx => idx
  | KeccakColumn.ThetaShiftsC idx => idx
  | KeccakColumn.ThetaDenseC idx => idx
  | KeccakColumn.ThetaQuotientC idx => idx
  | KeccakColumn.ThetaRemainderC idx => idx
  | KeccakColumn.ThetaDenseRotC idx => idx
  | KeccakColumn.ThetaExpandRotC idx => idx
  | KeccakColumn.PiRhoShiftsE idx => idx
  | KeccakColumn.PiRhoDenseE idx => idx
  | KeccakColumn.PiRhoQuotientE idx => idx
  | KeccakColumn.PiRhoRemainderE idx => idx
  | KeccakColumn.PiRhoDenseRotE idx => idx
  | KeccakColumn.PiRhoExpandRotE idx => idx
  | KeccakColumn.ChiShiftsB idx => idx
  | KeccakColumn.ChiShiftsSum idx => idx
  | KeccakColumn.SpongeNewState idx => idx
  | KeccakColumn.SpongeBytes idx => idx
  | KeccakColumn.SpongeShifts idx => idx
  | KeccakColumn.Output idx => idx
  | _ => 0

/-- The canonical column selector with the given tag and sub-index. -/
def colOf : KCKind → Nat → KeccakColumn
  | KCKind.HashIndex, _ => KeccakColumn.HashIndex
  | KCKind.StepIndex, _ => KeccakColumn.StepIndex
  | KCKind.FlagRound, _ => KeccakColumn.FlagRound
  | KCKind.FlagAbsorb, _ => KeccakColumn.FlagAbsorb
  | KCKind.FlagSqueeze, _ => KeccakColumn.FlagSqueeze
  | KCKind.FlagRoot, _ => KeccakColumn.FlagRoot
  | KCKind.PadLength, _ => KeccakColumn.PadLength
  | KCKind.InvPadLength, _ => KeccakColumn.InvPadLength
  | KCKind.TwoToPad, _ => KeccakColumn.TwoToPad
  | KCKind.PadBytesFlags, n => KeccakColumn.PadBytesFlags n
  | KCKind.PadSuffix, n => KeccakColumn.PadSuffix n
  | KCKind.RoundConstants, n => KeccakColumn.RoundConstants n
  | KCKind.Input, n => KeccakColumn.Input n
  | KCKind.ThetaShiftsC, n => KeccakColumn.ThetaShiftsC n
  | KCKind.ThetaDenseC, n => KeccakColumn.ThetaDenseC n
  | KCKind.ThetaQuotientC, n => KeccakColumn.ThetaQuotientC n
  | KCKind.ThetaRemainderC, n => KeccakColumn.ThetaRemainderC n
  | KCKind.ThetaDenseRotC, n => KeccakColumn.ThetaDenseRotC n
  | KCKind.ThetaExpandRotC, n => KeccakColumn.ThetaExpandRotC n
  | KCKind.PiRhoShiftsE, n => KeccakColumn.PiRhoShiftsE n
  | KCKind.PiRhoDenseE, n => KeccakColumn.PiRhoDenseE n
  | KCKind.PiRhoQuotientE, n => KeccakColumn.PiRhoQuotientE n
  | KCKind.PiRhoRemainderE, n => KeccakColumn.PiRhoRemainderE n
  | KCKind.PiRhoDenseRotE, n => KeccakColumn.PiRhoDenseRotE n
  | KCKind.PiRhoExpandRotE, n => KeccakColumn.PiRhoExpandRotE n
  | KCKind.ChiShiftsB, n => KeccakColumn.ChiShiftsB n
  | KCKind.ChiShiftsSum, n => KeccakColumn.ChiShiftsSum n
  | KCKind.SpongeNewState, n => KeccakColumn.SpongeNewState n
  | KCKind.SpongeBytes, n => KeccakColumn.SpongeBytes n
  | KCKind.SpongeShifts, n => KeccakColumn.SpongeShifts n
  | KCKind.Output, n => KeccakColumn.Output n

/-- The declared width of each selector group, as documented in the source
comments of column.rs (bare variants have width 1). -/
def kwidth : KCKind → Nat
  | KCKind.HashIndex => 1
  | KCKind.StepIndex => 1
  | KCKind.FlagRound => 1
  | KCKind.FlagAbsorb => 1
  | KCKind.FlagSqueeze => 1
  | KCKind.FlagRoot => 1
  | KCKind.PadLength => 1
  | KCKind.InvPadLength => 1
  | KCKind.TwoToPad => 1
  | KCKind.PadBytesFlags => RATE_IN_BYTES
  | KCKind.PadSuffix => SUFFIX_COLS_LENGTH
  | KCKind.RoundConstants => QUARTERS
  | KCKind.Input => 100
  | KCKind.ThetaShiftsC => 80
  | KCKind.ThetaDenseC => 20
  | KCKind.ThetaQuotientC => 5
  | KCKind.ThetaRemainderC => 20
  | KCKind.ThetaDenseRotC => 20
  | KCKind.ThetaExpandRotC => 20
  | KCKind.PiRhoShiftsE => 400
  | KCKind.PiRhoDenseE => 100
  | KCKind.PiRhoQuotientE => 100
  | KCKind.PiRhoRemainderE => 100
  | KCKind.PiRhoDenseRotE => 100
  | KCKind.PiRhoExpandRotE => 100
  | KCKind.ChiShiftsB => 400
  | KCKind.ChiShiftsSum => 400
  | KCKind.SpongeNewState => 100
  | KCKind.SpongeBytes => 200
  | KCKind.SpongeShifts => 400
  | KCKind.Output => ZKVM_KECCAK_COLS_NEXT

/-- The base of each selector group within the canonical flattening order
(the position of sub-index 0 of the group). -/
def kbase : KCKind → Nat
  | KCKind.HashIndex => 0
  | KCKind.StepIndex => 1
  | KCKind.FlagRound => 2
  | KCKind.FlagAbsorb => 3
  | KCKind.FlagSqueeze => 4
  | KCKind.FlagRoot => 5
  | KCKind.PadLength => 6
  | KCKind.InvPadLength => 7
  | KCKind.TwoToPad => 8
  | KCKind.PadBytesFlags => 9
  | KCKind.PadSuffix => 145
  | KCKind.RoundConstants => 150
  | KCKind.Input => 154
  | KCKind.ThetaShiftsC => 254
  | KCKind.ThetaDenseC => 334
  | KCKind.ThetaQuotientC => 354
  | KCKind.ThetaRemainderC => 359
  | KCKind.ThetaDenseRotC => 379
  | KCKind.ThetaExpandRotC => 399
  | KCKind.PiRhoShiftsE => 419
  | KCKind.PiRhoDenseE => 819
  | KCKind.PiRhoQuotientE => 919
  | KCKind.PiRhoRemainderE => 1019
  | KCKind.PiRhoDenseRotE => 1119
  | KCKind.PiRhoExpandRotE => 1219
  | KCKind.ChiShiftsB => 1319
  | KCKind.ChiShiftsSum => 1719
  | KCKind.SpongeNewState => 254
  | KCKind.SpongeBytes => 354
  | KCKind.SpongeShifts => 554
  | KCKind.Output => 2119

/-- Whether a tag is a round-phase intermediate group (Theta, PiRho, Chi). -/
def isRoundKind : KCKind → Bool
  | KCKind.ThetaShiftsC => true
  | KCKind.ThetaDenseC => true
  | KCKind.ThetaQuotientC => true
  | KCKind.ThetaRemainderC => true
  | KCKind.ThetaDenseRotC => true
  | KCKind.ThetaExpandRotC => true
  | KCKind.PiRhoShiftsE => true
  | KCKind.PiRhoDenseE => true
  | KCKind.PiRhoQuotientE => true
  | KCKind.PiRhoRemainderE => true
  | KCKind.PiRhoDenseRotE => true
  | KCKind.PiRhoExpandRotE => true
  | KCKind.ChiShiftsB => true
  | KCKind.ChiShiftsSum => true
  | _ => false

/-- Whether a tag is a sponge-phase group. -/
def isSpongeKind : KCKind → Bool
  | KCKind.SpongeNewState => true
  | KCKind.SpongeBytes => true
  | KCKind.SpongeShifts => true
  | _ => false

/-- Two tags can be live simultaneously: any pair except one round-phase
group against one sponge-phase group (those alias the same curr storage). -/
def compatibleKinds (k1 k2 : KCKind) : Bool :=
  !(isRoundKind k1 && isSpongeKind k2) && !(isSpongeKind k1 && isRoundKind k2)

/-- A column selector whose sub-index is within its group's declared width. -/
def validCol (c : KeccakColumn) : Prop :=
  c.subIdx < kwidth c.kind

instance (c : KeccakColumn) : Decidable (validCol c) := by
  unfold validCol
  infer_instance

lemma index_eq_readLoc {T : Type} (r : KeccakColumns T) (c : KeccakColumn) :
    r.index c = readLoc r (resolve c) := by
  cases c <;> rfl

lemma index_mut_eq_writeLoc {T : Type} (r : KeccakColumns T) (c : KeccakColumn) (v : T) :
    r.index_mut c v = writeLoc r (resolve c) v := by
  cases c <;> rfl

lemma colOf_kind_subIdx (c : KeccakColumn) : colOf c.kind c.subIdx = c := by
  cases c <;> rfl

lemma locPos_resolve (c : KeccakColumn) :
    locPos (resolve c) = kbase c.kind + c.subIdx := by
  cases c <;>
    simp only [resolve, locPos, KeccakColumn.kind, KeccakColumn.subIdx, kbase,
      FLAG_ROUND_OFFSET, FLAG_ABSORB_OFFSET, FLAG_SQUEEZE_OFFSET,
      FLAG_ROOT_OFFSET, FLAG_PAD_LENGTH_OFFSET, FLAG_INV_PAD_LENGTH_OFFSET,
      FLAG_TWO_TO_PAD_OFFSET, THETA_SHIFTS_C_OFF, THETA_DENSE_C_OFF,
      THETA_QUOTIENT_C_OFF, THETA_REMAINDER_C_OFF, THETA_DENSE_ROT_C_OFF,
      THETA_EXPAND_ROT_C_OFF, PIRHO_SHIFTS_E_OFF, PIRHO_DENSE_E_OFF,
      PIRHO_QUOTIENT_E_OFF, PIRHO_REMAINDER_E_OFF, PIRHO_DENSE_ROT_E_OFF,
      PIRHO_EXPAND_ROT_E_OFF, CHI_SHIFTS_B_OFF, CHI_SHIFTS_SUM_OFF,
      SPONGE_NEW_STATE_OFF, SPONGE_BYTES_OFF, SPONGE_SHIFTS_OFF] <;>
    omega

lemma kinds_disjoint (k1 k2 : KCKind) (hne : k1 ≠ k2)
    (hcomp : compatibleKinds k1 k2 = true) :
    kbase k1 + kwidth k1 ≤ kbase k2 ∨ kbase k2 + kwidth k2 ≤ kbase k1 := by
  revert hne hcomp
  revert k1 k2
  decide

lemma valid_locInBounds (c : KeccakColumn) (h : validCol c) :
    locInBounds (resolve c) := by
  cases c <;>
    simp only [validCol, KeccakColumn.kind, KeccakColumn.subIdx, kwidth,
      resolve, locInBounds, RATE_IN_BYTES, SUFFIX_COLS_LENGTH, QUARTERS,
      ZKVM_KECCAK_COLS_CURR, ZKVM_KECCAK_COLS_NEXT, MODE_FLAGS_COLS_LENGTH,
      FLAG_ROUND_OFFSET, FLAG_ABSORB_OFFSET, FLAG_SQUEEZE_OFFSET,
      FLAG_ROOT_OFFSET, FLAG_PAD_LENGTH_OFFSET, FLAG_INV_PAD_LENGTH_OFFSET,
      FLAG_TWO_TO_PAD_OFFSET, THETA_SHIFTS_C_OFF, THETA_DENSE_C_OFF,
      THETA_QUOTIENT_C_OFF, THETA_REMAINDER_C_OFF, THETA_DENSE_ROT_C_OFF,
      THETA_EXPAND_ROT_C_OFF, PIRHO_SHIFTS_E_OFF, PIRHO_DENSE_E_OFF,
      PIRHO_QUOTIENT_E_OFF, PIRHO_REMAINDER_E_OFF, PIRHO_DENSE_ROT_E_OFF,
      PIRHO_EXPAND_ROT_E_OFF, CHI_SHIFTS_B_OFF, CHI_SHIFTS_SUM_OFF,
      SPONGE_NEW_STATE_OFF, SPONGE_BYTES_OFF, SPONGE_SHIFTS_OFF] at h ⊢ <;>
    first
    | trivial
    | omega

lemma readLoc_eq_none_iff {T : Type} (r : KeccakColumns T) (l : Loc) :
    readLoc r l = none ↔ ¬ locInBounds l := by
  cases l <;> simp [readLoc, arrGet, locInBounds]

lemma writeLoc_eq_none_iff {T : Type} (r : KeccakColumns T) (l : Loc) (v : T) :
    writeLoc r l v = none ↔ ¬ locInBounds l := by
  cases l <;> simp [writeLoc, arrSet, locInBounds]

lemma readLoc_writeLoc_same {T : Type} (r : KeccakColumns T) (l : Loc) (v : T)
    (h : locInBounds l) :
    Option.map (fun w => readLoc w l) (writeLoc r l v) = some (some v) := by
  cases l <;>
    simp_all [writeLoc, readLoc, arrSet, arrGet, locInBounds]

lemma readLoc_writeLoc_ne {T : Type} (r : KeccakColumns T) (l l' : Loc) (v : T)
    (h : locInBounds l) (hne : l' ≠ l) :
    Option.map (fun w => readLoc w l') (writeLoc r l v) = some (readLoc r l') := by
  cases l <;> cases l' <;>
    simp_all [writeLoc, readLoc, arrSet, arrGet, locInBounds,
      Function.update, Fin.ext_iff]

/-! ### Claims C8 and C10 -/

/-- C8: for every valid column selector the read accessor and the read-write
accessor resolve to the same physical slot (writing then reading back yields
the written value), and no two distinct (variant, sub-index) pairs that can
be live in the same phase resolve to the same physical slot. -/
theorem c8_addressing_bijection {T : Type} (r : KeccakColumns T) (v : T)
    (c1 c2 : KeccakColumn) (h1 : validCol c1) (h2 : validCol c2)
    (hph : compatibleKinds c1.kind c2.kind = true) :
    Option.map (fun w => w.index c1) (r.index_mut c1 v) = some (some v) ∧
    (c1 ≠ c2 → resolve c1 ≠ resolve c2) := by
  constructor
  · simp only [index_eq_readLoc, index_mut_eq_writeLoc]
    exact readLoc_writeLoc_same r _ v (valid_locInBounds c1 h1)
  · intro hne he
    have hp : locPos (resolve c1) = locPos (resolve c2) := by rw [he]
    rw [locPos_resolve, locPos_resolve] at hp
    by_cases hk : c1.kind = c2.kind
    · have hs : c1.subIdx = c2.subIdx := by
        rw [hk] at hp
        omega
      exact hne (by rw [← colOf_kind_subIdx c1, ← colOf_kind_subIdx c2, hk, hs])
    · have hw1 : c1.subIdx < kwidth c1.kind := h1
      have hw2 : c2.subIdx < kwidth c2.kind := h2
      rcases kinds_disjoint c1.kind c2.kind hk hph with hd | hd <;> omega

/-- Witness for C8 at concrete inputs: writing 3 at Input 5 reads back 3,
and Input 5 and ThetaShiftsC 5 resolve to distinct slots. -/
theorem c8_addressing_bijection_witness :
    Option.map (fun w => w.index (KeccakColumn.Input 5))
      ((KeccakColumns.default Int).index_mut (KeccakColumn.Input 5) 3) =
      some (some 3) ∧
    (KeccakColumn.Input 5 ≠ KeccakColumn.ThetaShiftsC 5 →
      resolve (KeccakColumn.Input 5) ≠ resolve (KeccakColumn.ThetaShiftsC 5)) :=
  c8_addressing_bijection (KeccakColumns.default Int) 3 (KeccakColumn.Input 5)
    (KeccakColumn.ThetaShiftsC 5) (by decide) (by decide) (by decide)

/-- C10: writing through the read-write accessor at a valid column selector
changes only the physical slot it resolves to: reading any column selector
that resolves to a different slot returns the value it had before. -/
theorem c10_write_frame {T : Type} (r : KeccakColumns T) (v : T)
    (c c' : KeccakColumn) (h : validCol c) (hne : resolve c' ≠ resolve c) :
    Option.map (fun w => w.index c') (r.index_mut c v) = some (r.index c') := by
  simp only [index_eq_readLoc, index_mut_eq_writeLoc]
  exact readLoc_writeLoc_ne r _ _ v (valid_locInBounds c h) hne

/-- Witness for C10 at concrete inputs: writing 7 at Input 0 leaves
HashIndex unchanged. -/
theorem c10_write_frame_witness :
    Option.map (fun w => w.index KeccakColumn.HashIndex)
      ((KeccakColumns.default Int).index_mut (KeccakColumn.Input 0) 7) =
      some ((KeccakColumns.default Int).index KeccakColumn.HashIndex) :=
  c10_write_frame (KeccakColumns.default Int) 7 (KeccakColumn.Input 0)
    KeccakColumn.HashIndex (by decide) (by decide)

/-! ### Claim C2

The original claim says that for every parametrized variant a sub-index at
or above the group's declared width aborts.  That holds for the groups whose
backing array has exactly the declared width (PadBytesFlags, PadSuffix,
RoundConstants, Output, and ChiShiftsSum at the end of curr), but for the
other curr-backed groups the access only aborts once offset + sub-index
reaches the width of curr (1965): Input 100 is at the declared width of its
group yet silently resolves to the slot of ThetaShiftsC 0. -/

/-- C2 counterexample: the sub-index 100 is at the declared width of the
Input group (so the claim requires an abort), yet the read accessor returns
a value, resolving to the physical slot of ThetaShiftsC 0. -/
theorem c2_counterexample_input_oob :
    kwidth (KeccakColumn.Input 100).kind ≤ 100 ∧
    (KeccakColumns.default Int).index (KeccakColumn.Input 100) = some 0 ∧
    resolve (KeccakColumn.Input 100) = resolve (KeccakColumn.ThetaShiftsC 0) :=
  ⟨by decide, rfl, by decide⟩

/-- C2 (amended): an access through the read or read-write accessor aborts
exactly when the resolved physical slot is out of bounds of its backing
array.  For PadBytesFlags, PadSuffix, RoundConstants and Output this
coincides with the sub-index reaching the declared group width; for
curr-backed groups such as Input, a sub-index at or above the declared width
that still lands inside curr is accepted and silently resolves to another
group's slot. -/
theorem c2_oob_subindex_aborts_iff {T : Type} (r : KeccakColumns T) (v : T) :
    (∀ c : KeccakColumn, r.index c = none ↔ ¬ locInBounds (resolve c)) ∧
    (∀ c : KeccakColumn, r.index_mut c v = none ↔ ¬ locInBounds (resolve c)) ∧
    (∀ i, RATE_IN_BYTES ≤ i → r.index (KeccakColumn.PadBytesFlags i) = none) ∧
    (∀ i, SUFFIX_COLS_LENGTH ≤ i → r.index (KeccakColumn.PadSuffix i) = none) ∧
    (∀ i, QUARTERS ≤ i → r.index (KeccakColumn.RoundConstants i) = none) ∧
    (∀ i, ZKVM_KECCAK_COLS_NEXT ≤ i → r.index (KeccakColumn.Output i) = none) ∧
    (∀ i, kwidth KCKind.Input ≤ i → i < ZKVM_KECCAK_COLS_CURR →
      (r.index (KeccakColumn.Input i)).isSome) := by
  refine ⟨?_, ?_, ?_, ?_, ?_, ?_, ?_⟩
  · intro c
    rw [index_eq_readLoc]
    exact readLoc_eq_none_iff r _
  · intro c
    rw [index_mut_eq_writeLoc]
    exact writeLoc_eq_none_iff r _ v
  · intro i hi
    rw [index_eq_readLoc, readLoc_eq_none_iff]
    simp only [resolve, locInBounds]
    omega
  · intro i hi
    rw [index_eq_readLoc, readLoc_eq_none_iff]
    simp only [resolve, locInBounds]
    omega
  · intro i hi
    rw [index_eq_readLoc, readLoc_eq_none_iff]
    simp only [resolve, locInBounds]
    omega
  · intro i hi
    rw [index_eq_readLoc, readLoc_eq_none_iff]
    simp only [resolve, locInBounds]
    omega
  · intro i hi hb
    rw [index_eq_readLoc, ← Option.ne_none_iff_isSome, Ne, readLoc_eq_none_iff,
      not_not]
    exact hb

/-- Witness for C2 at concrete inputs: PadBytesFlags at its width aborts,
while Input at its declared width succeeds. -/
theorem c2_oob_subindex_aborts_iff_witness :
    (KeccakColumns.default Int).index (KeccakColumn.PadBytesFlags 136) = none ∧
    ((KeccakColumns.default Int).index (KeccakColumn.Input 100)).isSome :=
  ⟨(c2_oob_subindex_aborts_iff (KeccakColumns.default Int) 0).2.2.1 136 (by decide),
   (c2_oob_subindex_aborts_iff (KeccakColumns.default Int) 0).2.2.2.2.2.2 100
     (by decide) (by decide)⟩
